import Mathlib

/-! SnippetBox: the request handlers of `cmd/web/handlers.go`.

A shallow embedding of the HTTP handlers of the SnippetBox web application.

* A handler is a state-passing program over a `World`: the session bound to the
  request and the ordered trace of every call the handler makes to a
  collaborator (snippet store, user store, session manager, response helpers).
* The stores and the token regeneration of the session manager are oracles held
  by `application`: what they return is fixed by the environment, never by the
  handler.
* Go's `(value, error)` results are pairs whose second component is
  `Option Error` (`none` is `nil`), so that the value returned next to an error
  stays available to code that goes on after the error, as in the source.
* Strings are sequences of Unicode code points; `utf8.RuneCountInString` is
  `String.length`.
-/

namespace SnippetBox

/-! ## Errors -/

/-- Modelled from the spec: the error values the handlers tell apart with
`errors.Is`, namely the sentinels `ErrNoRecord`, `ErrInvalidCredentials` and
`ErrDuplicateEmail` of package `internal/models` (outside `cmd/web`), next to
the two errors of `strconv`; any other error is `other`. -/
inductive Error where
  | ErrNoRecord
  | ErrInvalidCredentials
  | ErrDuplicateEmail
  | ErrSyntax
  | ErrRange
  | other (msg : String)
  deriving DecidableEq, Repr

/-- Go's `error` interface value: `none` is `nil`. -/
abbrev error := Option Error

/-- Go's `errors.Is(err, target)` for a sentinel `target`: errors are not wrapped
in this model, so it is equality with the sentinel. -/
def errorsIs (err : error) (target : Error) : Bool :=
  decide (err = some target)

/-! ## HTTP status codes used by the handlers -/

def StatusOK : Nat := 200
def StatusSeeOther : Nat := 303
def StatusUnprocessableEntity : Nat := 422

/-! ## `strconv.Atoi` and `%d` -/

/-- Value of an ASCII decimal digit, `none` for any other character. -/
def digitVal (c : Char) : Option Nat :=
  if 48 ≤ c.toNat ∧ c.toNat ≤ 57 then some (c.toNat - 48) else none

/-- Unsigned decimal parse of a non-empty run of digits (the loop
`n = n*10 + int(ch)` of `strconv`), `none` on a non-digit. -/
def parseDigits : List Char → Nat → Option Nat
  | [], acc => some acc
  | c :: cs, acc =>
    match digitVal c with
    | none => none
    | some d => parseDigits cs (acc * 10 + d)

/-- The sign handling of `strconv.Atoi`: one leading `-` or `+` is taken off;
the result tells whether the sign was `-`. -/
def stripSign : List Char → Bool × List Char
  | '-' :: cs => (true, cs)
  | '+' :: cs => (false, cs)
  | cs => (false, cs)

/-- Go's `strconv.Atoi` on a 64-bit platform: an optional sign, then one or more
decimal digits, the value within `[-2^63, 2^63 - 1]`. On a range error Go returns
the nearest bound next to the error. -/
def Atoi (s : String) : Int × error :=
  match stripSign s.data with
  | (_, []) => (0, some Error.ErrSyntax)
  | (neg, cs) =>
    match parseDigits cs 0 with
    | none => (0, some Error.ErrSyntax)
    | some n =>
      if neg then
        if n ≤ 2 ^ 63 then (-(n : Int), none) else (-(2 ^ 63 : Int), some Error.ErrRange)
      else
        if n < 2 ^ 63 then ((n : Int), none) else ((2 ^ 63 - 1 : Int), some Error.ErrRange)

/-- Character of a decimal digit value below ten. -/
def digitChar (d : Nat) : Char :=
  Char.ofNat (48 + d)

/-- Decimal digits of a natural number, most significant first, prepended to
`acc`; `fuel` bounds the number of digits. -/
def natDigits : Nat → Nat → List Char → List Char
  | 0, _, acc => acc
  | fuel + 1, n, acc =>
    if n / 10 = 0 then digitChar (n % 10) :: acc
    else natDigits fuel (n / 10) (digitChar (n % 10) :: acc)

/-- Go's `fmt.Sprintf("%d", i)`: the decimal numeral of `i`, with a leading `-`
when negative. -/
def formatInt (i : Int) : String :=
  match i with
  | Int.ofNat n => String.mk (natDigits (n + 1) n [])
  | Int.negSucc n => String.mk ('-' :: natDigits (n + 2) (n + 1) [])

/-! ## Package `validator` -/

/-- Go's `unicode.IsSpace`: the Unicode White_Space code points. -/
def isSpace (c : Char) : Bool :=
  let n := c.toNat
  (9 ≤ n && n ≤ 13) || n == 32 || n == 0x85 || n == 0xA0 || n == 0x1680 ||
  (0x2000 ≤ n && n ≤ 0x200A) || n == 0x2028 || n == 0x2029 || n == 0x202F ||
  n == 0x205F || n == 0x3000

/-- Go's `strings.TrimSpace`: leading and trailing white space removed. -/
def TrimSpace (s : String) : String :=
  String.mk ((s.data.dropWhile isSpace).reverse.dropWhile isSpace).reverse

/-- Modelled from the spec: `validator.Validator` of package `internal/validator`
(outside `cmd/web`): a mapping from field name to its first error message, as an
association list with unique keys, and the ordered sequence of non-field
messages. -/
structure Validator where
  NonFieldErrors : List String := []
  FieldErrors : List (String × String) := []
  deriving DecidableEq, Repr

/-- Modelled from the spec: `Valid()` of package `internal/validator` is true
iff both containers are empty. -/
def Validator.Valid (v : Validator) : Bool :=
  v.FieldErrors.length == 0 && v.NonFieldErrors.length == 0

/-- Modelled from the spec: `AddFieldError(field, message)` of package
`internal/validator` records `message` under `field` unless the field already has one
(first failure per field wins). -/
def Validator.AddFieldError (v : Validator) (key message : String) : Validator :=
  match v.FieldErrors.lookup key with
  | some _ => v
  | none => { v with FieldErrors := v.FieldErrors ++ [(key, message)] }

/-- Modelled from the spec: `AddNonFieldErrors(message)` of package
`internal/validator` appends to the ordered non-field sequence. -/
def Validator.AddNonFieldErrors (v : Validator) (message : String) : Validator :=
  { v with NonFieldErrors := v.NonFieldErrors ++ [message] }

/-- Modelled from the spec: `CheckField(ok, field, message)` of package
`internal/validator` records the message when `ok` is false. -/
def Validator.CheckField (v : Validator) (ok : Bool) (key message : String) : Validator :=
  if !ok then v.AddFieldError key message else v

/-- Modelled from the spec: `NotBlank(s)` of package `internal/validator` fails
iff the trimmed string is empty. -/
def NotBlank (value : String) : Bool :=
  TrimSpace value != ""

/-- Modelled from the spec: `MaxChars(s, n)` of package `internal/validator`
fails iff the rune length of `s` exceeds `n`. -/
def MaxChars (value : String) (n : Nat) : Bool :=
  decide (value.length ≤ n)

/-- Modelled from the spec: `MinChars(s, n)` of package `internal/validator`
fails iff the rune length of `s` falls below `n`. -/
def MinChars (value : String) (n : Nat) : Bool :=
  decide (value.length ≥ n)

/-- Modelled from the spec: `PermittedInt(v, allowed...)` of package
`internal/validator` fails iff `v` is not one of the permitted integers. -/
def PermittedInt (value : Int) (permittedValues : List Int) : Bool :=
  permittedValues.any fun p => decide (value = p)

/-- A compiled regular expression, known only through `MatchString`. -/
structure Regexp where
  MatchString : String → Bool

/-- Modelled from the spec: `Matches(s, pattern)` of package
`internal/validator` fails iff `s` does not match the regular expression. -/
def Matches (value : String) (rx : Regexp) : Bool :=
  rx.MatchString value

/-! ## Requests, forms and template data -/

/-- Go's `url.Values`: for each key the values submitted, in order. -/
abbrev Values := List (String × List String)

/-- Go's `url.Values.Get`: the first value of the key, `""` when there is none. -/
def Values.Get (v : Values) (key : String) : String :=
  match v.lookup key with
  | some (x :: _) => x
  | _ => ""

/-- The `httprouter.Params` of a request: key and value pairs in route order. -/
abbrev Params := List (String × String)

/-- `httprouter.Params.ByName`: the value of the first parameter of that name,
`""` when there is none. -/
def Params.ByName (ps : Params) (name : String) : String :=
  match ps.lookup name with
  | some x => x
  | none => ""

/-- What a handler reads of `*http.Request`: the outcome of `ParseForm`, the
`PostForm` values it fills in, and the route parameters kept in the context. -/
structure Request where
  ParseFormErr : error := none
  PostForm : Values := []
  Params : Params := []
  deriving DecidableEq, Repr

/-- `req.ParseForm()`. -/
def Request.ParseForm (req : Request) : error :=
  req.ParseFormErr

/-- `req.PostFormValue(key)`: the first value of `key` in the parsed post form. -/
def Request.PostFormValue (req : Request) (key : String) : String :=
  req.PostForm.Get key

/-- `httprouter.ParamsFromContext(req.Context())`. -/
def ParamsFromContext (req : Request) : Params :=
  req.Params

/-- Modelled from the spec: `models.Snippet` of package `internal/models` (outside
`cmd/web`), a stored snippet; the handlers only pass it on to the template. -/
structure Snippet where
  ID : Int
  Title : String
  Content : String
  deriving DecidableEq, Repr

/-- The form of `snippetCreatePost`. Its own `FieldErrors` field shadows the one
promoted from the embedded `Validator`; the promoted methods act on the
embedded value. -/
structure snippetCreateForm where
  Title : String := ""
  Content : String := ""
  Expires : Int := 0
  FieldErrors : List (String × String) := []
  Validator : Validator := {}
  deriving DecidableEq, Repr

/-- The form of `userSignupPost`. -/
structure userSignUpForm where
  Name : String := ""
  Email : String := ""
  Password : String := ""
  Validator : Validator := {}
  deriving DecidableEq, Repr

/-- The form of `userLoginPost`. -/
structure userLoginForm where
  Email : String := ""
  Password : String := ""
  Validator : Validator := {}
  deriving DecidableEq, Repr

/-- The method `CheckField` promoted from the embedded `Validator`. -/
def snippetCreateForm.CheckField (f : snippetCreateForm) (ok : Bool) (key message : String) :
    snippetCreateForm :=
  { f with Validator := f.Validator.CheckField ok key message }

/-- The method `Valid` promoted from the embedded `Validator`. -/
def snippetCreateForm.Valid (f : snippetCreateForm) : Bool :=
  f.Validator.Valid

/-- The method `CheckField` promoted from the embedded `Validator`. -/
def userSignUpForm.CheckField (f : userSignUpForm) (ok : Bool) (key message : String) :
    userSignUpForm :=
  { f with Validator := f.Validator.CheckField ok key message }

/-- The method `AddFieldError` promoted from the embedded `Validator`. -/
def userSignUpForm.AddFieldError (f : userSignUpForm) (key message : String) : userSignUpForm :=
  { f with Validator := f.Validator.AddFieldError key message }

/-- The method `Valid` promoted from the embedded `Validator`. -/
def userSignUpForm.Valid (f : userSignUpForm) : Bool :=
  f.Validator.Valid

/-- The method `AddNonFieldErrors` promoted from the embedded `Validator`. -/
def userLoginForm.AddNonFieldErrors (f : userLoginForm) (message : String) : userLoginForm :=
  { f with Validator := f.Validator.AddNonFieldErrors message }

/-- The dynamic value stored in `templateData.Form` (Go `any`). -/
inductive FormValue where
  | none
  | snippetCreate (f : snippetCreateForm)
  | userSignUp (f : userSignUpForm)
  | userLogin (f : userLoginForm)
  deriving DecidableEq, Repr

/-- Modelled from the spec: the struct `templateData` (declared beside the
handlers, outside `handlers.go` and `main.go`), with the fields that the
handlers assign; whatever else `newTemplateData` fills in is not observed by
them. -/
structure templateData where
  Snippets : List Snippet := []
  Snippet : Option Snippet := none
  Form : FormValue := FormValue.none
  deriving DecidableEq, Repr

/-! ## Session, effects and the world of one request -/

/-- A value kept in the session: the flash string or the numeric identity. -/
inductive SessionValue where
  | str (s : String)
  | int (i : Int)
  deriving DecidableEq, Repr

/-- The session bound to the request: its token and its key-value mapping. -/
structure Session where
  token : String
  values : String → Option SessionValue

/-- One call of a handler to a collaborator, in the order of execution. -/
inductive Event where
  | SnippetsLatest
  | SnippetsGet (id : Int)
  | SnippetsInsert (title content : String) (expires : Int)
  | UsersInsert (name email password : String)
  | UsersAuthenticate (email password : String)
  | RenewToken
  | Put (key : String) (val : SessionValue)
  | Remove (key : String)
  | notFound
  | serverError (err : error)
  | render (status : Nat) (page : String) (data : templateData)
  | Redirect (url : String) (code : Nat)
  deriving DecidableEq, Repr

/-- The calls that write an HTTP response. -/
def Event.isResponse : Event → Bool
  | Event.notFound => true
  | Event.serverError _ => true
  | Event.render _ _ _ => true
  | Event.Redirect _ _ => true
  | _ => false

/-- The calls that write to a store. -/
def Event.isStoreWrite : Event → Bool
  | Event.SnippetsInsert _ _ _ => true
  | Event.UsersInsert _ _ _ => true
  | _ => false

/-- The calls that change the session. -/
def Event.isSessionOp : Event → Bool
  | Event.RenewToken => true
  | Event.Put _ _ => true
  | Event.Remove _ => true
  | _ => false

/-- State threaded through a handler: the session and the trace of calls made so
far, oldest first. -/
structure World where
  session : Session
  trace : List Event := []

/-- A handler body: a state-passing computation over the world. -/
abbrev Handler := StateM World

/-- Appends one call to the trace. -/
def emit (e : Event) : Handler Unit :=
  modify fun w => { w with trace := w.trace ++ [e] }

/-- Runs a handler for one request bound to session `s`, from an empty trace. -/
def serve (h : Handler Unit) (s : Session) : World :=
  (h.run { session := s, trace := [] }).2

/-- Number of responses written during a run. -/
def World.responses (w : World) : Nat :=
  w.trace.countP Event.isResponse

/-! ## Collaborators -/

/-- Modelled from the spec: `models.SnippetModelInterface` of package
`internal/models` (outside `cmd/web`), as what the snippet store answers to
`Insert`, `Get` and `Latest`. -/
structure SnippetModelInterface where
  insert : String → String → Int → Int × error
  get : Int → Option Snippet × error
  latest : List Snippet × error

/-- Modelled from the spec: `models.UserModelInterface` of package
`internal/models` (outside `cmd/web`), as what the user store answers to
`Insert` and `Authenticate`. -/
structure UserModelInterface where
  insert : String → String → String → error
  authenticate : String → String → Int × error

/-- The session manager (`scs.SessionManager`): `regenerate` tells whether the
token of a session can be regenerated, giving the fresh token or the error. -/
structure SessionManager where
  regenerate : Session → Except Error String

/-- The `application` struct of `main.go`, with the collaborators the handlers
reach. `baseData` is what the helper `newTemplateData` builds for a request and
session. -/
structure application where
  snippets : SnippetModelInterface
  users : UserModelInterface
  sessionManager : SessionManager
  baseData : Request → Session → templateData

/-- `Snippets.Latest()`. -/
def SnippetModelInterface.Latest (m : SnippetModelInterface) : Handler (List Snippet × error) := do
  emit Event.SnippetsLatest
  return m.latest

/-- `Snippets.Get(id)`. -/
def SnippetModelInterface.Get (m : SnippetModelInterface) (id : Int) :
    Handler (Option Snippet × error) := do
  emit (Event.SnippetsGet id)
  return m.get id

/-- `Snippets.Insert(title, content, expires)`. -/
def SnippetModelInterface.Insert (m : SnippetModelInterface) (title content : String)
    (expires : Int) : Handler (Int × error) := do
  emit (Event.SnippetsInsert title content expires)
  return m.insert title content expires

/-- `Users.Insert(name, email, password)`. -/
def UserModelInterface.Insert (m : UserModelInterface) (name email password : String) :
    Handler error := do
  emit (Event.UsersInsert name email password)
  return m.insert name email password

/-- `Users.Authenticate(email, password)`. -/
def UserModelInterface.Authenticate (m : UserModelInterface) (email password : String) :
    Handler (Int × error) := do
  emit (Event.UsersAuthenticate email password)
  return m.authenticate email password

/-- `sessionManager.RenewToken(ctx)`: replaces the token and keeps the stored
values; on failure the session is left as it was and the error is returned. -/
def SessionManager.RenewToken (sm : SessionManager) : Handler error := do
  emit Event.RenewToken
  let w ← get
  match sm.regenerate w.session with
  | Except.error e => return some e
  | Except.ok tok =>
    set { w with session := { w.session with token := tok } }
    return none

/-- `sessionManager.Put(ctx, key, val)`: writes one session value. -/
def SessionManager.Put (_sm : SessionManager) (key : String) (val : SessionValue) :
    Handler Unit := do
  emit (Event.Put key val)
  modify fun w =>
    { w with session :=
        { w.session with values := fun k => if k = key then some val else w.session.values k } }

/-- `sessionManager.Remove(ctx, key)`: deletes one key, keeping the session. -/
def SessionManager.Remove (_sm : SessionManager) (key : String) : Handler Unit := do
  emit (Event.Remove key)
  modify fun w =>
    { w with session :=
        { w.session with values := fun k => if k = key then none else w.session.values k } }

/-- Modelled from the spec: the helper `app.notFound(w)` (defined beside the
handlers, outside `handlers.go` and `main.go`) writes the not-found response. -/
def application.notFound (_app : application) : Handler Unit :=
  emit Event.notFound

/-- Modelled from the spec: the helper `app.serverError(w, err)` (defined beside
the handlers, outside `handlers.go` and `main.go`) writes the generic
server-error response. -/
def application.serverError (_app : application) (err : error) : Handler Unit :=
  emit (Event.serverError err)

/-- Modelled from the spec: the helper `app.newTemplateData(req)` (defined beside
the handlers, outside `handlers.go` and `main.go`) reads the session and does
not change it. -/
def application.newTemplateData (app : application) (req : Request) : Handler templateData := do
  let w ← get
  return app.baseData req w.session

/-- Modelled from the spec: the helper `app.render(w, status, page, data)`
(defined beside the handlers, outside `handlers.go` and `main.go`) writes the
response that renders the page template with the status. -/
def application.render (_app : application) (status : Nat) (page : String)
    (data : templateData) : Handler Unit :=
  emit (Event.render status page data)

/-- `http.Redirect(w, req, url, code)`. -/
def Redirect (url : String) (code : Nat) : Handler Unit :=
  emit (Event.Redirect url code)

/-! ## The handlers of `cmd/web/handlers.go` -/

/-- The handler `home`. -/
def application.home (app : application) (req : Request) : Handler Unit := do
  let (snippets, err) ← app.snippets.Latest
  if err ≠ none then
    if errorsIs err Error.ErrNoRecord then
      app.notFound
    else
      app.serverError err
  let data ← app.newTemplateData req
  let data := { data with Snippets := snippets }
  app.render StatusOK "home.html" data

/-- The handler `snippetView`. -/
def application.snippetView (app : application) (req : Request) : Handler Unit := do
  let params := ParamsFromContext req
  let (id, err) := Atoi (params.ByName "id")
  if err ≠ none || id < 1 then
    app.notFound
    return
  let (snippet, err) ← app.snippets.Get id
  if err ≠ none then
    if errorsIs err Error.ErrNoRecord then
      app.notFound
    else
      app.serverError err
  let data ← app.newTemplateData req
  let data := { data with Snippet := snippet }
  app.render StatusOK "view.html" data

/-- The handler `snippetCreatePost`. -/
def application.snippetCreatePost (app : application) (req : Request) : Handler Unit := do
  let err := req.ParseForm
  if err ≠ none then
    return
  let (expires, err) := Atoi (req.PostForm.Get "expires")
  if err ≠ none then
    return
  let mut snippetForm : snippetCreateForm :=
    { Title := req.PostForm.Get "title",
      Content := req.PostForm.Get "content",
      Expires := expires }
  snippetForm := snippetForm.CheckField (NotBlank snippetForm.Title) "title"
    "This field cannot be blank"
  snippetForm := snippetForm.CheckField (MaxChars snippetForm.Title 100) "title"
    "This field cannnot be greater than 100 characters long."
  snippetForm := snippetForm.CheckField (NotBlank snippetForm.Content) "content"
    "This field cannot be blank"
  snippetForm := snippetForm.CheckField (PermittedInt snippetForm.Expires [1, 7, 365]) "expires"
    "This field must equal 1, 7 or 365"
  if !snippetForm.Valid then
    let data ← app.newTemplateData req
    let data := { data with Form := FormValue.snippetCreate snippetForm }
    app.render StatusUnprocessableEntity "create.html" data
    return
  let (id, err) ← app.snippets.Insert snippetForm.Title snippetForm.Content snippetForm.Expires
  if err ≠ none then
    app.serverError err
    return
  app.sessionManager.Put "flash" (SessionValue.str "Snippet successfully created!!!")
  Redirect ("/snippet/view/" ++ formatInt id) StatusSeeOther

/-- The handler `userSignupPost`; `EmailRX` is the package-level pattern
`validator.EmailRX`. -/
def application.userSignupPost (EmailRX : Regexp) (app : application) (r : Request) :
    Handler Unit := do
  let err := r.ParseForm
  if err ≠ none then
    return
  let mut form : userSignUpForm :=
    { Name := r.PostForm.Get "name",
      Email := r.PostForm.Get "email",
      Password := r.PostForm.Get "password" }
  form := form.CheckField (NotBlank form.Name) "name" "This field cannot be blank"
  form := form.CheckField (NotBlank form.Email) "email" "This field cannot be blank"
  form := form.CheckField (Matches form.Email EmailRX) "email"
    "This field must be a valid email address"
  form := form.CheckField (NotBlank form.Password) "password" "This field cannot be blank"
  form := form.CheckField (MinChars form.Password 8) "password"
    "This field must be at least 8 characters long"
  if !form.Valid then
    let data ← app.newTemplateData r
    let data := { data with Form := FormValue.userSignUp form }
    app.render StatusOK "signup.html" data
  let err ← app.users.Insert form.Name form.Email form.Password
  if err ≠ none then
    if errorsIs err Error.ErrDuplicateEmail then
      form := form.AddFieldError "email" "Email address is already in use"
      let data ← app.newTemplateData r
      let data := { data with Form := FormValue.userSignUp form }
      app.render StatusUnprocessableEntity "signup.html" data
    else
      app.serverError err
    return
  app.sessionManager.Put "flash" (SessionValue.str "Your Signup was successful. Please log in!!")
  Redirect "/user/login" StatusSeeOther

/-- The handler `userLoginPost`. -/
def application.userLoginPost (app : application) (r : Request) : Handler Unit := do
  let err := r.ParseForm
  if err ≠ none then
    return
  let mut form : userLoginForm :=
    { Email := r.PostForm.Get "email",
      Password := r.PostFormValue "password" }
  let (id, err) ← app.users.Authenticate form.Email form.Password
  if err ≠ none then
    if errorsIs err Error.ErrInvalidCredentials then
      form := form.AddNonFieldErrors "Email or password is incorrect"
      let data ← app.newTemplateData r
      let data := { data with Form := FormValue.userLogin form }
      app.render StatusUnprocessableEntity "login.html" data
    else
      app.serverError err
    return
  let err ← app.sessionManager.RenewToken
  if err ≠ none then
    app.serverError err
  app.sessionManager.Put "authenticatedUserID" (SessionValue.int id)
  Redirect "/snippet/create" StatusSeeOther

/-- The handler `userLogoutPost`. -/
def application.userLogoutPost (app : application) (_r : Request) : Handler Unit := do
  let err ← app.sessionManager.RenewToken
  if err ≠ none then
    app.serverError err
    return
  app.sessionManager.Remove "authenticatedUserID"
  app.sessionManager.Put "flash" (SessionValue.str "You have been logged out successfully!!")
  Redirect "/" StatusSeeOther

/-! ## Sample collaborators and requests -/

/-- Session of a visitor who is not logged in. -/
def anonymousSession : Session :=
  { token := "t0", values := fun _ => none }

/-- Session of user 4, which also holds a value under another key. -/
def authenticatedSession : Session :=
  { token := "t1",
    values := fun k =>
      if k = "authenticatedUserID" then some (SessionValue.int 4)
      else if k = "theme" then some (SessionValue.str "dark")
      else none }

/-- A stand-in for `validator.EmailRX`: accepts the strings that contain `@`. -/
def samplePattern : Regexp :=
  { MatchString := fun s => s.data.contains '@' }

/-- An application whose stores succeed for every call except a login with
credentials other than `a@b.com` / `pa55word!`, and whose token regeneration
yields `"t9"`. -/
def workingApp : application :=
  { snippets :=
      { insert := fun _ _ _ => (12, none),
        get := fun id => (some { ID := id, Title := "T", Content := "c" }, none),
        latest := ([], none) },
    users :=
      { insert := fun _ _ _ => none,
        authenticate := fun email password =>
          if email = "a@b.com" ∧ password = "pa55word!" then (3, none)
          else (0, some Error.ErrInvalidCredentials) },
    sessionManager := { regenerate := fun _ => Except.ok "t9" },
    baseData := fun _ _ => {} }

/-- The working application with a session store that cannot regenerate tokens. -/
def renewFailingApp : application :=
  { workingApp with
    sessionManager := { regenerate := fun _ => Except.error (Error.other "session store") } }

/-- An application whose snippet store has no record and whose user store
reports every email as taken and fails every login with a storage error. -/
def storeFailingApp : application :=
  { snippets :=
      { insert := fun _ _ _ => (0, some (Error.other "database")),
        get := fun _ => (none, some Error.ErrNoRecord),
        latest := ([], some (Error.other "database")) },
    users :=
      { insert := fun _ _ _ => some Error.ErrDuplicateEmail,
        authenticate := fun _ _ => (0, some (Error.other "database")) },
    sessionManager := { regenerate := fun _ => Except.ok "t9" },
    baseData := fun _ _ => {} }

/-- POST /user/login with the credentials of a registered user. -/
def loginRequest : Request :=
  { PostForm := [("email", ["a@b.com"]), ("password", ["pa55word!"])] }

/-- POST /user/login with a wrong password. -/
def wrongPasswordRequest : Request :=
  { PostForm := [("email", ["a@b.com"]), ("password", ["guess"])] }

/-- POST /user/login with both fields left empty. -/
def blankLoginRequest : Request :=
  { PostForm := [("email", [""]), ("password", [""])] }

/-- POST /user/signup with a five-character password. -/
def shortPasswordSignup : Request :=
  { PostForm := [("name", ["Bob"]), ("email", ["a@b.com"]), ("password", ["12345"])] }

/-- POST /user/signup with a nine-character password. -/
def validSignup : Request :=
  { PostForm := [("name", ["Bob"]), ("email", ["a@b.com"]), ("password", ["pa55word!"])] }

/-- POST /snippet/create with `expires=30`. -/
def createExpires30 : Request :=
  { PostForm := [("title", ["O snail"]), ("content", ["Climb Mount Fuji"]), ("expires", ["30"])] }

/-- POST /snippet/create with `expires=7`. -/
def createExpires7 : Request :=
  { PostForm := [("title", ["O snail"]), ("content", ["Climb Mount Fuji"]), ("expires", ["7"])] }

/-- GET /snippet/view/5. -/
def viewRequest : Request :=
  { Params := [("id", "5")] }

/-- GET /. -/
def homeRequest : Request :=
  {}

/-! ## Decimal numerals: `%d` followed by `strconv.Atoi` -/

/-- A digit character has the value of its digit. -/
theorem digitVal_digitChar (d : Nat) (h : d < 10) : digitVal (digitChar d) = some d := by
  interval_cases d <;> decide

/-- A digit character is not a sign. -/
theorem stripSign_digit (d : Nat) (h : d < 10) (rest : List Char) :
    stripSign (digitChar d :: rest) = (false, digitChar d :: rest) := by
  interval_cases d <;> rfl

/-- Parsing the digits written for `n` in front of `acc` amounts to parsing `acc`
from the value `n`. -/
theorem parseDigits_natDigits (fuel : Nat) :
    ∀ (n : Nat) (acc : List Char), n < 10 ^ fuel →
      parseDigits (natDigits fuel n acc) 0 = parseDigits acc n := by
  induction fuel with
  | zero =>
    intro n acc h
    have : n = 0 := by simpa using h
    subst this
    simp [natDigits]
  | succ k ih =>
    intro n acc h
    unfold natDigits
    split
    · rename_i h0
      have hn : n < 10 := by omega
      simp [parseDigits, Nat.mod_eq_of_lt hn, digitVal_digitChar n hn]
    · have hk : n / 10 < 10 ^ k := by
        rw [pow_succ] at h
        exact Nat.div_lt_of_lt_mul (by rw [Nat.mul_comm]; exact h)
      rw [ih _ _ hk]
      simp [parseDigits, digitVal_digitChar _ (Nat.mod_lt n (by decide)), Nat.div_add_mod']

/-- With fuel left, the numeral written starts with a digit. -/
theorem natDigits_head (fuel : Nat) :
    ∀ (n : Nat) (acc : List Char),
      ∃ d rest, d < 10 ∧ natDigits (fuel + 1) n acc = digitChar d :: rest := by
  induction fuel with
  | zero =>
    intro n acc
    refine ⟨n % 10, acc, Nat.mod_lt n (by decide), ?_⟩
    simp [natDigits]
  | succ k ih =>
    intro n acc
    unfold natDigits
    split
    · exact ⟨n % 10, acc, Nat.mod_lt n (by decide), rfl⟩
    · exact ih _ _

/-- The fuel given by `formatInt` covers every digit. -/
theorem lt_ten_pow_succ (n : Nat) : n < 10 ^ (n + 1) :=
  calc n < 10 ^ n := Nat.lt_pow_self (by decide) n
    _ ≤ 10 ^ (n + 1) := Nat.pow_le_pow_right (by decide) (Nat.le_succ n)

/-- The numeral that `%d` writes for a 64-bit integer is read back by
`strconv.Atoi` as that integer, without error. -/
theorem Atoi_formatInt (i : Int) (hlo : -(2 ^ 63) ≤ i) (hhi : i < 2 ^ 63) :
    Atoi (formatInt i) = (i, none) := by
  cases i with
  | ofNat n =>
    obtain ⟨d, rest, hd, hdata⟩ := natDigits_head n n []
    have hparse := parseDigits_natDigits (n + 1) n [] (lt_ten_pow_succ n)
    rw [hdata] at hparse
    have hparse2 : parseDigits (digitChar d :: rest) 0 = some n := by rw [hparse]; rfl
    have hn : n < 2 ^ 63 := by
      simp only [Int.ofNat_eq_coe] at hhi
      exact_mod_cast hhi
    simp [Atoi, formatInt, hdata, stripSign_digit d hd, hparse2]
    omega
  | negSucc n =>
    obtain ⟨d, rest, hd, hdata⟩ := natDigits_head (n + 1) (n + 1) []
    have hparse := parseDigits_natDigits (n + 2) (n + 1) [] (lt_ten_pow_succ (n + 1))
    rw [hdata] at hparse
    have hparse2 : parseDigits (digitChar d :: rest) 0 = some (n + 1) := by rw [hparse]; rfl
    have hn : n + 1 ≤ 2 ^ 63 := by
      have : -(2 ^ 63 : Int) ≤ -((n : Int) + 1) := by
        simpa [Int.negSucc_eq] using hlo
      omega
    simp [Atoi, formatInt, hdata, stripSign, hparse2, Int.negSucc_eq]
    omega

/-! ## Login -/

/-- C3: when authentication and token renewal both succeed, `userLoginPost`
calls, in this order, Authenticate, RenewToken, Put of the identity returned by
Authenticate under "authenticatedUserID", and the 303 redirect to
/snippet/create; no Put of the identity comes before a RenewToken call, and the
session ends with the fresh token and the identity stored. -/
theorem userLoginPost_renew_then_put (app : application) (r : Request) (s : Session)
    (id : Int) (tok : String)
    (hparse : r.ParseForm = none)
    (hauth : app.users.authenticate (r.PostForm.Get "email") (r.PostFormValue "password")
      = (id, none))
    (hrenew : app.sessionManager.regenerate s = Except.ok tok) :
    (serve (app.userLoginPost r) s).trace =
      [Event.UsersAuthenticate (r.PostForm.Get "email") (r.PostFormValue "password"),
       Event.RenewToken,
       Event.Put "authenticatedUserID" (SessionValue.int id),
       Event.Redirect "/snippet/create" 303]
    ∧ (∀ pre post v, (serve (app.userLoginPost r) s).trace = pre ++ Event.RenewToken :: post →
        Event.Put "authenticatedUserID" v ∉ pre)
    ∧ (serve (app.userLoginPost r) s).session.values "authenticatedUserID"
        = some (SessionValue.int id)
    ∧ (serve (app.userLoginPost r) s).session.token = tok := by
  have htrace : (serve (app.userLoginPost r) s).trace =
      [Event.UsersAuthenticate (r.PostForm.Get "email") (r.PostFormValue "password"),
       Event.RenewToken,
       Event.Put "authenticatedUserID" (SessionValue.int id),
       Event.Redirect "/snippet/create" 303] := by
    simp [serve, application.userLoginPost, hparse, UserModelInterface.Authenticate, emit, hauth,
      SessionManager.RenewToken, hrenew, SessionManager.Put, Redirect, StatusSeeOther, StateT.run,
      bind, StateT.bind, modify, modifyGet, MonadStateOf.modifyGet, StateT.modifyGet, pure,
      StateT.pure, get, getThe, MonadStateOf.get, StateT.get, set, StateT.set]
  refine ⟨htrace, ?_, ?_, ?_⟩
  · intro pre post v h
    rw [htrace] at h
    rcases pre with _ | ⟨a, _ | ⟨b, _ | ⟨c, _ | ⟨d, pre⟩⟩⟩⟩
    · simp
    · simp only [List.cons_append, List.nil_append, List.cons.injEq] at h
      obtain ⟨rfl, -, -⟩ := h
      simp
    all_goals simp at h
  · simp [serve, application.userLoginPost, hparse, UserModelInterface.Authenticate, emit, hauth,
      SessionManager.RenewToken, hrenew, SessionManager.Put, Redirect, StatusSeeOther, StateT.run,
      bind, StateT.bind, modify, modifyGet, MonadStateOf.modifyGet, StateT.modifyGet, pure,
      StateT.pure, get, getThe, MonadStateOf.get, StateT.get, set, StateT.set]
  · simp [serve, application.userLoginPost, hparse, UserModelInterface.Authenticate, emit, hauth,
      SessionManager.RenewToken, hrenew, SessionManager.Put, Redirect, StatusSeeOther, StateT.run,
      bind, StateT.bind, modify, modifyGet, MonadStateOf.modifyGet, StateT.modifyGet, pure,
      StateT.pure, get, getThe, MonadStateOf.get, StateT.get, set, StateT.set]

/-- Witness of C3: the registered user logging in from an anonymous session. -/
theorem userLoginPost_renew_then_put_witness :
    (serve (workingApp.userLoginPost loginRequest) anonymousSession).trace =
      [Event.UsersAuthenticate "a@b.com" "pa55word!", Event.RenewToken,
       Event.Put "authenticatedUserID" (SessionValue.int 3),
       Event.Redirect "/snippet/create" 303]
    ∧ (serve (workingApp.userLoginPost loginRequest) anonymousSession).session.token = "t9" :=
  have h := userLoginPost_renew_then_put workingApp loginRequest anonymousSession 3 "t9"
    (by decide) (by decide) rfl
  ⟨h.1, h.2.2.2⟩

/-- C4: when Authenticate fails, `userLoginPost` produces exactly one response
after the Authenticate call: for InvalidCredentials the login form re-rendered
with status 422, carrying exactly one non-field error and no field error; for
any other error the server error. In both cases no session operation is called
and the session is left as it was. -/
theorem userLoginPost_authenticate_error (app : application) (r : Request) (s : Session)
    (id : Int) (e : Error)
    (hparse : r.ParseForm = none)
    (hauth : app.users.authenticate (r.PostForm.Get "email") (r.PostFormValue "password")
      = (id, some e)) :
    (serve (app.userLoginPost r) s).trace =
      [Event.UsersAuthenticate (r.PostForm.Get "email") (r.PostFormValue "password"),
       if e = Error.ErrInvalidCredentials then
         Event.render 422 "login.html"
           { app.baseData r s with
             Form := FormValue.userLogin
               { Email := r.PostForm.Get "email",
                 Password := r.PostFormValue "password",
                 Validator :=
                   { NonFieldErrors := ["Email or password is incorrect"],
                     FieldErrors := [] } } }
       else Event.serverError (some e)]
    ∧ (∀ ev ∈ (serve (app.userLoginPost r) s).trace, ev.isSessionOp = false)
    ∧ (serve (app.userLoginPost r) s).responses = 1
    ∧ (serve (app.userLoginPost r) s).session = s := by
  by_cases he : e = Error.ErrInvalidCredentials
  · subst he
    simp [serve, application.userLoginPost, hparse, UserModelInterface.Authenticate, emit, hauth,
      application.render, application.newTemplateData, application.serverError, errorsIs,
      userLoginForm.AddNonFieldErrors, Validator.AddNonFieldErrors, World.responses,
      Event.isResponse, Event.isSessionOp, StatusUnprocessableEntity, StateT.run,
      bind, StateT.bind, modify, modifyGet, MonadStateOf.modifyGet, StateT.modifyGet, pure,
      StateT.pure, get, getThe, MonadStateOf.get, StateT.get, set, StateT.set]
  · simp [serve, application.userLoginPost, hparse, UserModelInterface.Authenticate, emit, hauth,
      application.render, application.newTemplateData, application.serverError, errorsIs, he,
      userLoginForm.AddNonFieldErrors, Validator.AddNonFieldErrors, World.responses,
      Event.isResponse, Event.isSessionOp, StatusUnprocessableEntity, StateT.run,
      bind, StateT.bind, modify, modifyGet, MonadStateOf.modifyGet, StateT.modifyGet, pure,
      StateT.pure, get, getThe, MonadStateOf.get, StateT.get, set, StateT.set]

/-- Witness of C4: a wrong password for a registered email. -/
theorem userLoginPost_authenticate_error_witness :
    (serve (workingApp.userLoginPost wrongPasswordRequest) authenticatedSession).trace =
      [Event.UsersAuthenticate "a@b.com" "guess",
       Event.render 422 "login.html"
         { Form := FormValue.userLogin
             { Email := "a@b.com", Password := "guess",
               Validator := { NonFieldErrors := ["Email or password is incorrect"] } } }]
    ∧ (serve (workingApp.userLoginPost wrongPasswordRequest) authenticatedSession).responses = 1 :=
  have h := userLoginPost_authenticate_error workingApp wrongPasswordRequest authenticatedSession
    0 Error.ErrInvalidCredentials (by decide) (by decide)
  ⟨h.1, h.2.2.1⟩

/-- C2: a login whose Authenticate succeeds and whose RenewToken fails is not
aborted: after the server error `userLoginPost` goes on to Put the identity
under "authenticatedUserID" and to redirect, so two responses are written and
the session holds the identity. -/
theorem userLoginPost_renew_error_not_fatal (s : Session) :
    (serve (renewFailingApp.userLoginPost loginRequest) s).trace =
      [Event.UsersAuthenticate "a@b.com" "pa55word!",
       Event.RenewToken,
       Event.serverError (some (Error.other "session store")),
       Event.Put "authenticatedUserID" (SessionValue.int 3),
       Event.Redirect "/snippet/create" 303]
    ∧ (serve (renewFailingApp.userLoginPost loginRequest) s).responses = 2
    ∧ (serve (renewFailingApp.userLoginPost loginRequest) s).session.values
        "authenticatedUserID" = some (SessionValue.int 3) := by
  simp [serve, application.userLoginPost, renewFailingApp, workingApp, loginRequest,
    Request.ParseForm, Request.PostFormValue, Values.Get, List.lookup,
    UserModelInterface.Authenticate, emit, application.serverError,
    SessionManager.RenewToken, SessionManager.Put, Redirect, StatusSeeOther, World.responses,
    Event.isResponse, StateT.run,
    bind, StateT.bind, modify, modifyGet, MonadStateOf.modifyGet, StateT.modifyGet, pure,
    StateT.pure, get, getThe, MonadStateOf.get, StateT.get, set, StateT.set]

/-- For every parsed login form the first call of `userLoginPost` is Authenticate
with the submitted email and password, and Authenticate is called once. -/
theorem userLoginPost_first_call (app : application) (r : Request) (s : Session)
    (hparse : r.ParseForm = none) :
    ∃ rest, (serve (app.userLoginPost r) s).trace =
        Event.UsersAuthenticate (r.PostForm.Get "email") (r.PostFormValue "password") :: rest
      ∧ ∀ email password, Event.UsersAuthenticate email password ∉ rest := by
  rcases hauth : app.users.authenticate (r.PostForm.Get "email") (r.PostFormValue "password")
    with ⟨id, _ | e⟩
  · rcases hrenew : app.sessionManager.regenerate s with e | tok
    · refine ⟨[Event.RenewToken, Event.serverError (some e),
        Event.Put "authenticatedUserID" (SessionValue.int id),
        Event.Redirect "/snippet/create" 303], ?_, by simp⟩
      simp [serve, application.userLoginPost, hparse, UserModelInterface.Authenticate, emit,
        hauth, application.serverError,
        SessionManager.RenewToken, hrenew, SessionManager.Put, Redirect, StatusSeeOther,
        StateT.run,
        bind, StateT.bind, modify, modifyGet, MonadStateOf.modifyGet, StateT.modifyGet, pure,
        StateT.pure, get, getThe, MonadStateOf.get, StateT.get, set, StateT.set]
    · refine ⟨[Event.RenewToken, Event.Put "authenticatedUserID" (SessionValue.int id),
        Event.Redirect "/snippet/create" 303], ?_, by simp⟩
      simp [serve, application.userLoginPost, hparse, UserModelInterface.Authenticate, emit,
        hauth, application.serverError,
        SessionManager.RenewToken, hrenew, SessionManager.Put, Redirect, StatusSeeOther,
        StateT.run,
        bind, StateT.bind, modify, modifyGet, MonadStateOf.modifyGet, StateT.modifyGet, pure,
        StateT.pure, get, getThe, MonadStateOf.get, StateT.get, set, StateT.set]
  · by_cases he : e = Error.ErrInvalidCredentials
    · subst he
      refine ⟨[Event.render 422 "login.html"
        { app.baseData r s with
          Form := FormValue.userLogin
            { Email := r.PostForm.Get "email",
              Password := r.PostFormValue "password",
              Validator := { NonFieldErrors := ["Email or password is incorrect"] } } }],
        ?_, by simp⟩
      simp [serve, application.userLoginPost, hparse, UserModelInterface.Authenticate, emit,
        hauth, application.render, application.newTemplateData, errorsIs,
        userLoginForm.AddNonFieldErrors, Validator.AddNonFieldErrors,
        StatusUnprocessableEntity, StateT.run,
        bind, StateT.bind, modify, modifyGet, MonadStateOf.modifyGet, StateT.modifyGet, pure,
        StateT.pure, get, getThe, MonadStateOf.get, StateT.get, set, StateT.set]
    · refine ⟨[Event.serverError (some e)], ?_, by simp⟩
      simp [serve, application.userLoginPost, hparse, UserModelInterface.Authenticate, emit,
        hauth, application.serverError, errorsIs, he, StateT.run,
        bind, StateT.bind, modify, modifyGet, MonadStateOf.modifyGet, StateT.modifyGet, pure,
        StateT.pure, get, getThe, MonadStateOf.get, StateT.get, set, StateT.set]

/-- C10: `userLoginPost` runs no Validator check before contacting the user
store: a login form whose email and password are both blank, which the
`NotBlank` check rejects, is passed to Authenticate as the first call of the
handler, whatever the stores and the session are. -/
theorem userLoginPost_blank_form_reaches_authenticate (app : application) (s : Session) :
    NotBlank (blankLoginRequest.PostForm.Get "email") = false
    ∧ NotBlank (blankLoginRequest.PostFormValue "password") = false
    ∧ (serve (app.userLoginPost blankLoginRequest) s).trace.head? =
        some (Event.UsersAuthenticate "" "")
    ∧ Event.UsersAuthenticate "" "" ∈ (serve (app.userLoginPost blankLoginRequest) s).trace := by
  obtain ⟨rest, h, -⟩ := userLoginPost_first_call app blankLoginRequest s (by decide)
  have hemail : blankLoginRequest.PostForm.Get "email" = "" := by decide
  have hpw : blankLoginRequest.PostFormValue "password" = "" := by decide
  rw [hemail, hpw] at h
  refine ⟨by decide, by decide, ?_, ?_⟩
  · rw [h]; rfl
  · rw [h]; exact List.mem_cons_self _ _

/-! ## Logout -/

/-- C5: when RenewToken succeeds, `userLogoutPost` calls, in order, RenewToken,
Remove of "authenticatedUserID", Put of "flash" and the redirect; afterwards the
identity key is absent and every key other than the identity key and "flash"
holds what it held before. When RenewToken fails, the only calls are RenewToken
and the server error (no Remove, no Put) and the session is left as it was. -/
theorem userLogoutPost_contract (app : application) (r : Request) (s : Session) :
    (∀ tok, app.sessionManager.regenerate s = Except.ok tok →
      (serve (app.userLogoutPost r) s).trace =
        [Event.RenewToken,
         Event.Remove "authenticatedUserID",
         Event.Put "flash" (SessionValue.str "You have been logged out successfully!!"),
         Event.Redirect "/" 303]
      ∧ (serve (app.userLogoutPost r) s).session.values "authenticatedUserID" = none
      ∧ (∀ k, k ≠ "authenticatedUserID" → k ≠ "flash" →
          (serve (app.userLogoutPost r) s).session.values k = s.values k))
    ∧ (∀ e, app.sessionManager.regenerate s = Except.error e →
      (serve (app.userLogoutPost r) s).trace = [Event.RenewToken, Event.serverError (some e)]
      ∧ (serve (app.userLogoutPost r) s).session = s) := by
  constructor
  · intro tok hrenew
    refine ⟨?_, ?_, ?_⟩
    · simp [serve, application.userLogoutPost, emit, SessionManager.RenewToken, hrenew,
        SessionManager.Put, SessionManager.Remove, Redirect, StatusSeeOther, StateT.run,
        bind, StateT.bind, modify, modifyGet, MonadStateOf.modifyGet, StateT.modifyGet, pure,
        StateT.pure, get, getThe, MonadStateOf.get, StateT.get, set, StateT.set]
    · simp [serve, application.userLogoutPost, emit, SessionManager.RenewToken, hrenew,
        SessionManager.Put, SessionManager.Remove, Redirect, StatusSeeOther, StateT.run,
        bind, StateT.bind, modify, modifyGet, MonadStateOf.modifyGet, StateT.modifyGet, pure,
        StateT.pure, get, getThe, MonadStateOf.get, StateT.get, set, StateT.set]
    · intro k hk hf
      simp [serve, application.userLogoutPost, emit, SessionManager.RenewToken, hrenew,
        SessionManager.Put, SessionManager.Remove, Redirect, StatusSeeOther, StateT.run,
        bind, StateT.bind, modify, modifyGet, MonadStateOf.modifyGet, StateT.modifyGet, pure,
        StateT.pure, get, getThe, MonadStateOf.get, StateT.get, set, StateT.set, hk, hf]
  · intro e hrenew
    simp [serve, application.userLogoutPost, emit, SessionManager.RenewToken, hrenew,
      application.serverError, StateT.run,
      bind, StateT.bind, modify, modifyGet, MonadStateOf.modifyGet, StateT.modifyGet, pure,
      StateT.pure, get, getThe, MonadStateOf.get, StateT.get, set, StateT.set]

/-- Witness of C5: user 4 logs out, once with a working session store and once
with one that cannot regenerate the token. -/
theorem userLogoutPost_contract_witness :
    ((serve (workingApp.userLogoutPost homeRequest) authenticatedSession).session.values
        "authenticatedUserID" = none
      ∧ (serve (workingApp.userLogoutPost homeRequest) authenticatedSession).session.values
        "theme" = authenticatedSession.values "theme")
    ∧ (serve (renewFailingApp.userLogoutPost homeRequest) authenticatedSession).trace =
        [Event.RenewToken, Event.serverError (some (Error.other "session store"))] :=
  have h := userLogoutPost_contract workingApp homeRequest authenticatedSession
  have h2 := userLogoutPost_contract renewFailingApp homeRequest authenticatedSession
  ⟨⟨(h.1 "t9" rfl).2.1, (h.1 "t9" rfl).2.2 "theme" (by decide) (by decide)⟩,
    (h2.2 (Error.other "session store") rfl).1⟩

/-! ## Signup -/

/-- C1: a signup form that fails validation (five-character password) is
re-rendered, but `userSignupPost` does not return there: its next call is
Users.Insert with the rejected name, email and password, whatever the email
pattern and the stores are. -/
theorem userSignupPost_invalid_form_reaches_insert (EmailRX : Regexp) (app : application)
    (s : Session) :
    MinChars (shortPasswordSignup.PostForm.Get "password") 8 = false
    ∧ (∃ data, (serve (app.userSignupPost EmailRX shortPasswordSignup) s).trace[0]? =
        some (Event.render 200 "signup.html" data))
    ∧ (serve (app.userSignupPost EmailRX shortPasswordSignup) s).trace[1]? =
        some (Event.UsersInsert "Bob" "a@b.com" "12345") := by
  have hname : NotBlank "Bob" = true := by decide
  have hemail : NotBlank "a@b.com" = true := by decide
  have hpw : NotBlank "12345" = true := by decide
  have hmin : MinChars "12345" 8 = false := by decide
  refine ⟨by decide, ?_, ?_⟩ <;>
    cases hm : EmailRX.MatchString "a@b.com" <;>
    rcases hins : app.users.insert "Bob" "a@b.com" "12345" with _ | e <;>
    (try by_cases he : e = Error.ErrDuplicateEmail) <;>
    (try subst he) <;>
    simp [serve, application.userSignupPost, shortPasswordSignup, Request.ParseForm,
      Values.Get, List.lookup, Matches, errorsIs, *,
      userSignUpForm.CheckField, userSignUpForm.Valid, userSignUpForm.AddFieldError,
      Validator.CheckField, Validator.AddFieldError, Validator.Valid,
      UserModelInterface.Insert, emit, application.render, application.newTemplateData,
      application.serverError, SessionManager.Put, Redirect, StatusOK, StateT.run,
      bind, StateT.bind, modify, modifyGet, MonadStateOf.modifyGet, StateT.modifyGet, pure,
      StateT.pure, get, getThe, MonadStateOf.get, StateT.get, set, StateT.set]

/-- C8: for a signup form that passes every check, when Users.Insert fails with
DuplicateEmail, `userSignupPost` calls Insert once and then re-renders the
signup form with status 422; the field-error mapping of the rendered form is
exactly "email" -> "Email address is already in use"; nothing is written to
the session and no redirect is issued. -/
theorem userSignupPost_duplicate_email (EmailRX : Regexp) (app : application) (r : Request)
    (s : Session)
    (hparse : r.ParseForm = none)
    (hname : NotBlank (r.PostForm.Get "name") = true)
    (hemail : NotBlank (r.PostForm.Get "email") = true)
    (hrx : Matches (r.PostForm.Get "email") EmailRX = true)
    (hpw : NotBlank (r.PostForm.Get "password") = true)
    (hmin : MinChars (r.PostForm.Get "password") 8 = true)
    (hins : app.users.insert (r.PostForm.Get "name") (r.PostForm.Get "email")
      (r.PostForm.Get "password") = some Error.ErrDuplicateEmail) :
    (serve (app.userSignupPost EmailRX r) s).trace =
      [Event.UsersInsert (r.PostForm.Get "name") (r.PostForm.Get "email")
         (r.PostForm.Get "password"),
       Event.render 422 "signup.html"
         { app.baseData r s with
           Form := FormValue.userSignUp
             { Name := r.PostForm.Get "name",
               Email := r.PostForm.Get "email",
               Password := r.PostForm.Get "password",
               Validator :=
                 { NonFieldErrors := [],
                   FieldErrors := [("email", "Email address is already in use")] } } }]
    ∧ (serve (app.userSignupPost EmailRX r) s).responses = 1
    ∧ (serve (app.userSignupPost EmailRX r) s).session = s := by
  simp [serve, application.userSignupPost, hparse, hname, hemail, hrx, hpw, hmin, hins, errorsIs,
    userSignUpForm.CheckField, userSignUpForm.Valid, userSignUpForm.AddFieldError,
    Validator.CheckField, Validator.AddFieldError, Validator.Valid, List.lookup,
    UserModelInterface.Insert, emit, application.render, application.newTemplateData,
    World.responses, Event.isResponse, StatusUnprocessableEntity, StateT.run,
    bind, StateT.bind, modify, modifyGet, MonadStateOf.modifyGet, StateT.modifyGet, pure,
    StateT.pure, get, getThe, MonadStateOf.get, StateT.get, set, StateT.set]

/-- Witness of C8: a valid signup whose email is already registered. -/
theorem userSignupPost_duplicate_email_witness :
    (serve (storeFailingApp.userSignupPost samplePattern validSignup) anonymousSession).trace =
      [Event.UsersInsert "Bob" "a@b.com" "pa55word!",
       Event.render 422 "signup.html"
         { Form := FormValue.userSignUp
             { Name := "Bob", Email := "a@b.com", Password := "pa55word!",
               Validator :=
                 { FieldErrors := [("email", "Email address is already in use")] } } }] :=
  (userSignupPost_duplicate_email samplePattern storeFailingApp validSignup anonymousSession
    (by decide) (by decide) (by decide) (by decide) (by decide) (by decide) (by decide)).1

/-! ## Snippet creation -/

/-- C6: when `expires` parses to an integer outside {1, 7, 365},
`snippetCreatePost` only re-renders the create form with status 422, the form
carrying "expires" -> "This field must equal 1, 7 or 365", and Snippets.Insert
is not called. In general Snippets.Insert is called iff `expires` parses to a
member of {1, 7, 365}, the title is not blank after trimming and has at most
100 runes, and the content is not blank after trimming. -/
theorem snippetCreatePost_insert_iff_valid (app : application) (req : Request) (s : Session)
    (hparse : req.ParseForm = none) :
    (∀ e, Atoi (req.PostForm.Get "expires") = (e, none) → e ≠ 1 → e ≠ 7 → e ≠ 365 →
      ∃ form : snippetCreateForm,
        (serve (app.snippetCreatePost req) s).trace =
          [Event.render 422 "create.html"
            { app.baseData req s with Form := FormValue.snippetCreate form }]
        ∧ form.Title = req.PostForm.Get "title"
        ∧ form.Content = req.PostForm.Get "content"
        ∧ form.Expires = e
        ∧ form.Validator.FieldErrors.lookup "expires" = some "This field must equal 1, 7 or 365"
        ∧ form.Valid = false)
    ∧ ((∃ title content expires,
          Event.SnippetsInsert title content expires ∈ (serve (app.snippetCreatePost req) s).trace)
        ↔ ((Atoi (req.PostForm.Get "expires")).2 = none
          ∧ ((Atoi (req.PostForm.Get "expires")).1 = 1
            ∨ (Atoi (req.PostForm.Get "expires")).1 = 7
            ∨ (Atoi (req.PostForm.Get "expires")).1 = 365)
          ∧ TrimSpace (req.PostForm.Get "title") ≠ ""
          ∧ (req.PostForm.Get "title").length ≤ 100
          ∧ TrimSpace (req.PostForm.Get "content") ≠ "")) := by
  constructor
  · intro e hatoi h1 h7 h365
    have hperm : PermittedInt e [1, 7, 365] = false := by simp [PermittedInt, h1, h7, h365]
    cases hb1 : NotBlank (req.PostForm.Get "title") <;>
      cases hb2 : MaxChars (req.PostForm.Get "title") 100 <;>
      cases hb3 : NotBlank (req.PostForm.Get "content") <;>
      simp [serve, application.snippetCreatePost, hparse, hatoi, hperm, hb1, hb2, hb3,
        snippetCreateForm.CheckField, snippetCreateForm.Valid,
        Validator.CheckField, Validator.AddFieldError, Validator.Valid, List.lookup,
        emit, application.render, application.newTemplateData,
        StatusUnprocessableEntity, StateT.run,
        bind, StateT.bind, modify, modifyGet, MonadStateOf.modifyGet, StateT.modifyGet, pure,
        StateT.pure, get, getThe, MonadStateOf.get, StateT.get, set, StateT.set]
  · have hp : ∀ e : Int, (e = 1 ∨ e = 7 ∨ e = 365) ↔ PermittedInt e [1, 7, 365] = true := by
      intro e; simp [PermittedInt]
    have hnb : ∀ x : String, TrimSpace x ≠ "" ↔ NotBlank x = true := by
      intro x; simp [NotBlank]
    have hmc : ∀ x : String, x.length ≤ 100 ↔ MaxChars x 100 = true := by
      intro x; simp [MaxChars]
    rw [hp, hnb, hnb, hmc]
    rcases hatoi : Atoi (req.PostForm.Get "expires") with ⟨e, _ | err⟩
    · rcases hins : app.snippets.insert (req.PostForm.Get "title") (req.PostForm.Get "content") e
        with ⟨id, _ | ierr⟩ <;>
      cases hb1 : NotBlank (req.PostForm.Get "title") <;>
      cases hb2 : MaxChars (req.PostForm.Get "title") 100 <;>
      cases hb3 : NotBlank (req.PostForm.Get "content") <;>
      cases hperm : PermittedInt e [1, 7, 365] <;>
      simp [serve, application.snippetCreatePost, hparse, hatoi, hperm, hb1, hb2, hb3, hins,
        snippetCreateForm.CheckField, snippetCreateForm.Valid,
        Validator.CheckField, Validator.AddFieldError, Validator.Valid, List.lookup,
        SnippetModelInterface.Insert, SessionManager.Put, Redirect, application.serverError,
        emit, application.render, application.newTemplateData,
        StatusUnprocessableEntity, StateT.run,
        bind, StateT.bind, modify, modifyGet, MonadStateOf.modifyGet, StateT.modifyGet, pure,
        StateT.pure, get, getThe, MonadStateOf.get, StateT.get, set, StateT.set]
    · simp [serve, application.snippetCreatePost, hparse, hatoi, StateT.run,
        bind, StateT.bind, modify, modifyGet, MonadStateOf.modifyGet, StateT.modifyGet, pure,
        StateT.pure, get, getThe, MonadStateOf.get, StateT.get, set, StateT.set]

/-- Witness of C6: `expires=30` is rejected and `expires=7` reaches the store. -/
theorem snippetCreatePost_insert_iff_valid_witness :
    (∃ form : snippetCreateForm,
      (serve (workingApp.snippetCreatePost createExpires30) anonymousSession).trace =
        [Event.render 422 "create.html" { Form := FormValue.snippetCreate form }]
      ∧ form.Validator.FieldErrors.lookup "expires" = some "This field must equal 1, 7 or 365")
    ∧ (∃ title content expires, Event.SnippetsInsert title content expires ∈
        (serve (workingApp.snippetCreatePost createExpires7) anonymousSession).trace) := by
  obtain ⟨form, h1, -, -, -, h5, -⟩ :=
    (snippetCreatePost_insert_iff_valid workingApp createExpires30 anonymousSession
      (by decide)).1 30 (by decide) (by decide) (by decide) (by decide)
  exact ⟨⟨form, h1, h5⟩,
    (snippetCreatePost_insert_iff_valid workingApp createExpires7 anonymousSession
      (by decide)).2.mpr (by decide)⟩

/-- C7: for a valid create form, `snippetCreatePost` calls Snippets.Insert once,
with the submitted title, content and expiry. When Insert returns an id, the
handler then puts the flash message into the session and redirects with status
303 to "/snippet/view/" followed by the decimal numeral of that id (for a
64-bit id, the numeral that `strconv.Atoi` reads back as the id). When Insert
returns an error, the only other call is the server error: no flash is written
and no redirect is issued. -/
theorem snippetCreatePost_valid_form (app : application) (req : Request) (s : Session)
    (e : Int)
    (hparse : req.ParseForm = none)
    (hatoi : Atoi (req.PostForm.Get "expires") = (e, none))
    (htitle : NotBlank (req.PostForm.Get "title") = true)
    (hmax : MaxChars (req.PostForm.Get "title") 100 = true)
    (hcontent : NotBlank (req.PostForm.Get "content") = true)
    (hperm : PermittedInt e [1, 7, 365] = true) :
    (∀ id, app.snippets.insert (req.PostForm.Get "title") (req.PostForm.Get "content") e
        = (id, none) →
      (serve (app.snippetCreatePost req) s).trace =
        [Event.SnippetsInsert (req.PostForm.Get "title") (req.PostForm.Get "content") e,
         Event.Put "flash" (SessionValue.str "Snippet successfully created!!!"),
         Event.Redirect ("/snippet/view/" ++ formatInt id) 303]
      ∧ (-(2 ^ 63) ≤ id → id < 2 ^ 63 → Atoi (formatInt id) = (id, none)))
    ∧ (∀ id err, app.snippets.insert (req.PostForm.Get "title") (req.PostForm.Get "content") e
        = (id, some err) →
      (serve (app.snippetCreatePost req) s).trace =
        [Event.SnippetsInsert (req.PostForm.Get "title") (req.PostForm.Get "content") e,
         Event.serverError (some err)]
      ∧ (serve (app.snippetCreatePost req) s).session = s)
    ∧ (serve (app.snippetCreatePost req) s).trace.filter Event.isStoreWrite =
        [Event.SnippetsInsert (req.PostForm.Get "title") (req.PostForm.Get "content") e] := by
  refine ⟨?_, ?_, ?_⟩
  · intro id hins
    refine ⟨?_, Atoi_formatInt id⟩
    simp [serve, application.snippetCreatePost, hparse, hatoi, hperm, htitle, hmax, hcontent,
      hins, snippetCreateForm.CheckField, snippetCreateForm.Valid,
      Validator.CheckField, Validator.AddFieldError, Validator.Valid,
      SnippetModelInterface.Insert, SessionManager.Put, Redirect, StatusSeeOther,
      emit, StateT.run,
      bind, StateT.bind, modify, modifyGet, MonadStateOf.modifyGet, StateT.modifyGet, pure,
      StateT.pure, get, getThe, MonadStateOf.get, StateT.get, set, StateT.set]
  · intro id err hins
    simp [serve, application.snippetCreatePost, hparse, hatoi, hperm, htitle, hmax, hcontent,
      hins, snippetCreateForm.CheckField, snippetCreateForm.Valid,
      Validator.CheckField, Validator.AddFieldError, Validator.Valid,
      SnippetModelInterface.Insert, application.serverError,
      emit, StateT.run,
      bind, StateT.bind, modify, modifyGet, MonadStateOf.modifyGet, StateT.modifyGet, pure,
      StateT.pure, get, getThe, MonadStateOf.get, StateT.get, set, StateT.set]
  · rcases hins : app.snippets.insert (req.PostForm.Get "title") (req.PostForm.Get "content") e
      with ⟨id, _ | err⟩ <;>
    simp [serve, application.snippetCreatePost, hparse, hatoi, hperm, htitle, hmax, hcontent,
      hins, snippetCreateForm.CheckField, snippetCreateForm.Valid,
      Validator.CheckField, Validator.AddFieldError, Validator.Valid,
      SnippetModelInterface.Insert, SessionManager.Put, Redirect, application.serverError,
      Event.isStoreWrite, emit, StateT.run,
      bind, StateT.bind, modify, modifyGet, MonadStateOf.modifyGet, StateT.modifyGet, pure,
      StateT.pure, get, getThe, MonadStateOf.get, StateT.get, set, StateT.set]

/-- Witness of C7: `expires=7` with a title and a content, stored under id 12 by
one store and refused by the other. -/
theorem snippetCreatePost_valid_form_witness :
    (serve (workingApp.snippetCreatePost createExpires7) anonymousSession).trace =
      [Event.SnippetsInsert "O snail" "Climb Mount Fuji" 7,
       Event.Put "flash" (SessionValue.str "Snippet successfully created!!!"),
       Event.Redirect "/snippet/view/12" 303]
    ∧ (serve (storeFailingApp.snippetCreatePost createExpires7) anonymousSession).trace =
      [Event.SnippetsInsert "O snail" "Climb Mount Fuji" 7,
       Event.serverError (some (Error.other "database"))] :=
  ⟨((snippetCreatePost_valid_form workingApp createExpires7 anonymousSession 7
      (by decide) (by decide) (by decide) (by decide) (by decide) (by decide)).1 12
      (by decide)).1,
   ((snippetCreatePost_valid_form storeFailingApp createExpires7 anonymousSession 7
      (by decide) (by decide) (by decide) (by decide) (by decide) (by decide)).2.1 0
      (Error.other "database") (by decide)).1⟩

/-! ## Home and snippet view -/

/-- C9: a store failure is not fatal in `home` and `snippetView`: after the
server-error page (`home`, Latest failing) or the not-found page (`snippetView`,
Get finding no record) the handler goes on to render its page template, so two
responses are written. -/
theorem home_snippetView_render_after_store_error (s : Session) :
    ((serve (storeFailingApp.home homeRequest) s).trace =
        [Event.SnippetsLatest,
         Event.serverError (some (Error.other "database")),
         Event.render 200 "home.html" {}]
      ∧ (serve (storeFailingApp.home homeRequest) s).responses = 2)
    ∧ ((serve (storeFailingApp.snippetView viewRequest) s).trace =
        [Event.SnippetsGet 5,
         Event.notFound,
         Event.render 200 "view.html" {}]
      ∧ (serve (storeFailingApp.snippetView viewRequest) s).responses = 2) := by
  have hid : Atoi (Params.ByName (ParamsFromContext viewRequest) "id") = (5, none) := by decide
  constructor
  · simp [serve, application.home, storeFailingApp, SnippetModelInterface.Latest, errorsIs,
      application.notFound, application.serverError, application.render,
      application.newTemplateData, emit, StatusOK, World.responses, Event.isResponse,
      StateT.run,
      bind, StateT.bind, modify, modifyGet, MonadStateOf.modifyGet, StateT.modifyGet, pure,
      StateT.pure, get, getThe, MonadStateOf.get, StateT.get, set, StateT.set]
  · simp [serve, application.snippetView, hid, storeFailingApp, SnippetModelInterface.Get,
      errorsIs, application.notFound, application.serverError, application.render,
      application.newTemplateData, emit, StatusOK, World.responses, Event.isResponse,
      StateT.run,
      bind, StateT.bind, modify, modifyGet, MonadStateOf.modifyGet, StateT.modifyGet, pure,
      StateT.pure, get, getThe, MonadStateOf.get, StateT.get, set, StateT.set]

end SnippetBox
